import Mathlib

/-
Verification of the vcpkg post-build lint (`toolsrc/src/post_build_lint.cpp`).

The development shallowly embeds the file's data model and checks:
* directive texts are `List Char`; the four CRT-linkage regexes of
  `check_crt_linkage_of_libs` are embedded as literal substring search
  (`searchLit`) and literal-followed-by-a-character-other-than search
  (`searchNotFollowedBy`, for the `[^D]` character class);
* the filesystem that the layout checks walk is an explicit environment:
  a list of file paths, a list of directory paths, and the captured outputs
  of the external dumpbin/COFF-reader collaborators;
* checks returning `lint_status` become pure functions of that environment;
  `Checks::check_exit` (fatal process termination) becomes `Except CheckFatal`;
* `perform_all_checks` is translated statement by statement, including the
  `operator+=` accumulation of `lint_status` into the error counter and the
  final `exit(EXIT_FAILURE)` branch.
-/

namespace PostBuildLint

/-! ## Text model: literal matching and searching over character lists -/

/-- Does `pat` literally occur at the head of `l`? (The anchored step of
`std::regex_search` for a pattern that is a plain string literal.) -/
def litMatch [BEq α] : List α → List α → Bool
  | [], _ => true
  | _ :: _, [] => false
  | p :: ps, c :: cs => p == c && litMatch ps cs

/-- Embedding of `std::regex_search` (also of `std::string::find != npos`) for
a pattern that is a plain string literal: `pat` occurs somewhere in the text. -/
def searchLit [BEq α] (pat : List α) : List α → Bool
  | [] => litMatch pat []
  | c :: cs => litMatch pat (c :: cs) || searchLit pat cs

/-- Anchored step for a regex of shape `lit[^x]`: the literal occurs at the
head and is followed by one more element that differs from `ex`. -/
def matchNotFollowedBy [BEq α] : List α → α → List α → Bool
  | [], ex, c :: _ => !(c == ex)
  | [], _, [] => false
  | _ :: _, _, [] => false
  | p :: ps, ex, c :: cs => p == c && matchNotFollowedBy ps ex cs

/-- Embedding of `std::regex_search` for a regex of shape `lit[^x]`. -/
def searchNotFollowedBy [BEq α] (pat : List α) (ex : α) : List α → Bool
  | [] => false
  | c :: cs => matchNotFollowedBy pat ex (c :: cs) || searchNotFollowedBy pat ex cs

/-- Element of a list at an index, as an option. -/
def charAt? : List α → Nat → Option α
  | [], _ => none
  | c :: _, 0 => some c
  | _ :: cs, n + 1 => charAt? cs n

theorem litMatch_length_le [BEq α] {p l : List α} (h : litMatch p l = true) :
    p.length ≤ l.length := by
  induction p generalizing l with
  | nil => simp
  | cons a ps ih =>
    cases l with
    | nil => simp [litMatch] at h
    | cons c cs =>
      simp only [litMatch, Bool.and_eq_true] at h
      exact Nat.succ_le_succ (ih h.2)

theorem litMatch_exists_append [BEq α] [LawfulBEq α] {p l : List α}
    (h : litMatch p l = true) : ∃ rest, l = p ++ rest := by
  induction p generalizing l with
  | nil => exact ⟨l, rfl⟩
  | cons a ps ih =>
    cases l with
    | nil => simp [litMatch] at h
    | cons c cs =>
      simp only [litMatch, Bool.and_eq_true, beq_iff_eq] at h
      obtain ⟨rest, hr⟩ := ih h.2
      exact ⟨rest, by simp [h.1, hr]⟩

theorem litMatch_append_right [BEq α] {a b l : List α}
    (h : litMatch (a ++ b) l = true) : litMatch b (l.drop a.length) = true := by
  induction a generalizing l with
  | nil => simpa using h
  | cons x xs ih =>
    cases l with
    | nil => simp [litMatch] at h
    | cons c cs =>
      simp only [List.cons_append, litMatch, Bool.and_eq_true] at h
      simpa using ih h.2

theorem litMatch_of_append_le [BEq α] {p a b : List α}
    (h : litMatch p (a ++ b) = true) (hle : p.length ≤ a.length) :
    litMatch p a = true := by
  induction p generalizing a with
  | nil => simp [litMatch]
  | cons x ps ih =>
    cases a with
    | nil => simp at hle
    | cons c cs =>
      simp only [List.cons_append, litMatch, Bool.and_eq_true] at h ⊢
      exact ⟨h.1, ih h.2 (by simpa using hle)⟩

theorem charAt?_lt_length {l : List α} {n : Nat} {c : α}
    (h : charAt? l n = some c) : n < l.length := by
  induction l generalizing n with
  | nil => simp [charAt?] at h
  | cons x xs ih =>
    cases n with
    | zero => simp
    | succ m => exact Nat.succ_lt_succ (ih (by simpa [charAt?] using h))

theorem charAt?_append_lt {a b : List α} {n : Nat} (h : n < a.length) :
    charAt? (a ++ b) n = charAt? a n := by
  induction a generalizing n with
  | nil => simp at h
  | cons x xs ih =>
    cases n with
    | zero => rfl
    | succ m => exact ih (by simpa using h)

theorem drop_append_of_le {a b : List α} {n : Nat} (h : n ≤ a.length) :
    (a ++ b).drop n = a.drop n ++ b := by
  induction a generalizing n with
  | nil =>
    have : n = 0 := Nat.le_zero.mp (by simpa using h)
    simp [this]
  | cons x xs ih =>
    cases n with
    | zero => rfl
    | succ m => exact ih (by simpa using h)

theorem drop_drop_add (l : List α) (n m : Nat) :
    (l.drop n).drop m = l.drop (n + m) := by
  induction l generalizing n with
  | nil => simp
  | cons x xs ih =>
    cases n with
    | zero => simp
    | succ k =>
      rw [Nat.add_right_comm]
      exact ih k

theorem searchLit_iff [BEq α] (pat t : List α) :
    searchLit pat t = true ↔ ∃ i, litMatch pat (t.drop i) = true := by
  induction t with
  | nil =>
    simp only [searchLit, List.drop_nil]
    exact ⟨fun h => ⟨0, h⟩, fun ⟨_, hi⟩ => hi⟩
  | cons c cs ih =>
    simp only [searchLit, Bool.or_eq_true, ih]
    constructor
    · rintro (h | ⟨i, hi⟩)
      · exact ⟨0, h⟩
      · exact ⟨i + 1, hi⟩
    · rintro ⟨i, hi⟩
      cases i with
      | zero => exact Or.inl hi
      | succ j => exact Or.inr ⟨j, hi⟩

theorem searchNotFollowedBy_iff [BEq α] (pat : List α) (ex : α) (t : List α) :
    searchNotFollowedBy pat ex t = true ↔
      ∃ i, matchNotFollowedBy pat ex (t.drop i) = true := by
  induction t with
  | nil =>
    simp only [searchNotFollowedBy, List.drop_nil]
    constructor
    · intro h; exact absurd h (by simp)
    · rintro ⟨i, hi⟩
      cases pat <;> simp [matchNotFollowedBy] at hi
  | cons c cs ih =>
    simp only [searchNotFollowedBy, Bool.or_eq_true, ih]
    constructor
    · rintro (h | ⟨i, hi⟩)
      · exact ⟨0, h⟩
      · exact ⟨i + 1, hi⟩
    · rintro ⟨i, hi⟩
      cases i with
      | zero => exact Or.inl hi
      | succ j => exact Or.inr ⟨j, hi⟩

theorem matchNotFollowedBy_iff [BEq α] [LawfulBEq α] (pat : List α) (ex : α) (l : List α) :
    matchNotFollowedBy pat ex l = true ↔
      litMatch pat l = true ∧ ∃ c, charAt? l pat.length = some c ∧ c ≠ ex := by
  induction pat generalizing l with
  | nil =>
    cases l with
    | nil => simp [matchNotFollowedBy, litMatch, charAt?]
    | cons c cs =>
      simp [matchNotFollowedBy, litMatch, charAt?]
  | cons p ps ih =>
    cases l with
    | nil => simp [matchNotFollowedBy, litMatch]
    | cons c cs =>
      simp only [matchNotFollowedBy, litMatch, Bool.and_eq_true, ih,
        List.length_cons, charAt?]
      constructor
      · rintro ⟨h1, h2, h3⟩; exact ⟨⟨h1, h2⟩, h3⟩
      · rintro ⟨⟨h1, h2⟩, h3⟩; exact ⟨h1, h2, h3⟩

/-! ## CRT linkage classifier (`check_crt_linkage_of_libs`, lines 502-600)

The four regexes of the source.  The two release regexes end in the character
class `[^D]`, so they are embedded as a literal part plus the requirement that
a character other than `D` follows. -/

/-- Pattern of `static const std::regex DEBUG_STATIC_CRT`. -/
def DEBUG_STATIC_CRT : List Char := "/DEFAULTLIB:LIBCMTD".data

/-- Pattern of `static const std::regex DEBUG_DYNAMIC_CRT`. -/
def DEBUG_DYNAMIC_CRT : List Char := "/DEFAULTLIB:MSVCRTD".data

/-- Literal part of `static const std::regex RELEASE_STATIC_CRT`, whose full
pattern is `/DEFAULTLIB:LIBCMT[^D]`. -/
def RELEASE_STATIC_CRT_LIT : List Char := "/DEFAULTLIB:LIBCMT".data

/-- Literal part of `static const std::regex RELEASE_DYNAMIC_CRT`, whose full
pattern is `/DEFAULTLIB:MSVCRT[^D]`. -/
def RELEASE_DYNAMIC_CRT_LIT : List Char := "/DEFAULTLIB:MSVCRT".data

/-- The bare CRT library stem shared by the debug-static and release-static
markers. -/
def LIBCMT : List Char := "LIBCMT".data

/-- The common directive head of all four markers. -/
def DEFAULTLIB_HEAD : List Char := "/DEFAULTLIB:".data

/-- `bool found_debug_static_crt = std::regex_search(..., DEBUG_STATIC_CRT)`. -/
def found_debug_static_crt (text : List Char) : Bool :=
  searchLit DEBUG_STATIC_CRT text

/-- `bool found_debug_dynamic_crt = std::regex_search(..., DEBUG_DYNAMIC_CRT)`. -/
def found_debug_dynamic_crt (text : List Char) : Bool :=
  searchLit DEBUG_DYNAMIC_CRT text

/-- `bool found_release_static_crt = std::regex_search(..., RELEASE_STATIC_CRT)`. -/
def found_release_static_crt (text : List Char) : Bool :=
  searchNotFollowedBy RELEASE_STATIC_CRT_LIT 'D' text

/-- `bool found_release_dynamic_crt = std::regex_search(..., RELEASE_DYNAMIC_CRT)`. -/
def found_release_dynamic_crt (text : List Char) : Bool :=
  searchNotFollowedBy RELEASE_DYNAMIC_CRT_LIT 'D' text

/-- `const size_t crts_found_count = found_debug_static_crt +
found_debug_dynamic_crt + found_release_static_crt + found_release_dynamic_crt`
(C++ implicitly converts each `bool` to `0` or `1`). -/
def crts_found_count (text : List Char) : Nat :=
  (found_debug_static_crt text).toNat + (found_debug_dynamic_crt text).toNat +
  (found_release_static_crt text).toNat + (found_release_dynamic_crt text).toNat

/-- The four runtime modes of `BuildType` that the classifier can detect. -/
inductive BuildType where
  | DEBUG_STATIC
  | DEBUG_DYNAMIC
  | RELEASE_STATIC
  | RELEASE_DYNAMIC
deriving DecidableEq

/-- Result of classifying one directive text: the bucket the per-lib branch of
`check_crt_linkage_of_libs` puts the library into (`libs_with_no_crts`,
`libs_with_multiple_crts`, or one of the four mode groups). -/
inductive CrtLinkageClassification where
  | undetectable
  | ambiguous
  | detected (bt : BuildType)
deriving DecidableEq

/-- The per-library branch of `check_crt_linkage_of_libs` (lines 531-563):
count zero goes to `libs_with_no_crts`, count above one goes to
`libs_with_multiple_crts`, and with exactly one CRT found the library goes to
the group of the one marker that matched, tested in source order. -/
def classify_crt_linkage (text : List Char) : CrtLinkageClassification :=
  if crts_found_count text = 0 then .undetectable
  else if 1 < crts_found_count text then .ambiguous
  else if found_debug_static_crt text then .detected .DEBUG_STATIC
  else if found_debug_dynamic_crt text then .detected .DEBUG_DYNAMIC
  else if found_release_static_crt text then .detected .RELEASE_STATIC
  else .detected .RELEASE_DYNAMIC

/-- The marker search belonging to each of the four runtime modes. -/
def foundMarker : BuildType → List Char → Bool
  | .DEBUG_STATIC, t => found_debug_static_crt t
  | .DEBUG_DYNAMIC, t => found_debug_dynamic_crt t
  | .RELEASE_STATIC, t => found_release_static_crt t
  | .RELEASE_DYNAMIC, t => found_release_dynamic_crt t

/-- A directive text containing the debug-static marker and the
release-dynamic marker (`/DEFAULTLIB:MSVCRT` followed by a space). -/
def ambiguousDirectiveText : List Char :=
  "/DEFAULTLIB:LIBCMTD /DEFAULTLIB:MSVCRT ".data

example : crts_found_count ambiguousDirectiveText = 2 := by decide
example : classify_crt_linkage DEBUG_STATIC_CRT = .detected .DEBUG_STATIC := by decide

/-- C1: the CRT-linkage classifier is a three-way total function of the number
of distinct runtime-mode markers found in the directive text: zero markers
classify the library as undetectable, two or more as ambiguous, and exactly
one as that marker's mode; in particular a text containing both
`/DEFAULTLIB:LIBCMTD` and `/DEFAULTLIB:MSVCRT` followed by a non-`D`
character is classified ambiguous. -/
theorem crt_classifier_three_way (t : List Char) :
    (crts_found_count t = 0 ↔ classify_crt_linkage t = .undetectable) ∧
    (2 ≤ crts_found_count t ↔ classify_crt_linkage t = .ambiguous) ∧
    (∀ bt, classify_crt_linkage t = .detected bt ↔
      (crts_found_count t = 1 ∧ foundMarker bt t = true)) ∧
    classify_crt_linkage ambiguousDirectiveText = .ambiguous := by
  refine ⟨?_, ?_, ?_, by decide⟩ <;>
  · try intro bt
    try cases bt
    all_goals
      cases h1 : found_debug_static_crt t <;> cases h2 : found_debug_dynamic_crt t <;>
      cases h3 : found_release_static_crt t <;> cases h4 : found_release_dynamic_crt t <;>
      simp_all [classify_crt_linkage, crts_found_count, foundMarker]

/-- C2: in a directive text whose every occurrence of `LIBCMT` lies inside an
occurrence of the debug-static marker `/DEFAULTLIB:LIBCMTD`, the
release-static marker is not detected; the text consisting of exactly
`/DEFAULTLIB:LIBCMTD` is classified debug-static with signal count one. -/
theorem debug_static_marker_not_release_static (t : List Char)
    (h : ∀ j, j < t.length → litMatch LIBCMT (t.drop j) = true →
      ∃ k, k ≤ j ∧ litMatch DEBUG_STATIC_CRT (t.drop k) = true ∧ j + 6 ≤ k + 19) :
    found_release_static_crt t = false ∧
    classify_crt_linkage DEBUG_STATIC_CRT = .detected .DEBUG_STATIC ∧
    crts_found_count DEBUG_STATIC_CRT = 1 := by
  refine ⟨?_, by decide, by decide⟩
  cases hfs : found_release_static_crt t
  · rfl
  exfalso
  rw [found_release_static_crt, searchNotFollowedBy_iff] at hfs
  obtain ⟨i, hi⟩ := hfs
  rw [matchNotFollowedBy_iff] at hi
  obtain ⟨hpre, c, hc, hcD⟩ := hi
  have hlen18 : RELEASE_STATIC_CRT_LIT.length = 18 := by decide
  rw [hlen18] at hc
  have hpre2 : litMatch (DEFAULTLIB_HEAD ++ LIBCMT) (t.drop i) = true := by
    have hsplit : DEFAULTLIB_HEAD ++ LIBCMT = RELEASE_STATIC_CRT_LIT := by decide
    rw [hsplit]; exact hpre
  have hlib : litMatch LIBCMT (t.drop (i + 12)) = true := by
    have h12 : DEFAULTLIB_HEAD.length = 12 := by decide
    have := litMatch_append_right hpre2
    rw [h12, drop_drop_add] at this
    exact this
  have hlt : 18 < (t.drop i).length := charAt?_lt_length hc
  rw [List.length_drop] at hlt
  obtain ⟨k, hk1, hk2, hk3⟩ := h (i + 12) (by omega) hlib
  obtain ⟨rest, hrest⟩ := litMatch_exists_append hk2
  have h19 : DEBUG_STATIC_CRT.length = 19 := by decide
  have h0 : t.drop (i + 12) = DEBUG_STATIC_CRT.drop (i + 12 - k) ++ rest := by
    have h1 : t.drop (i + 12) = (t.drop k).drop (i + 12 - k) := by
      rw [drop_drop_add]; congr 1; omega
    rw [h1, hrest, drop_append_of_le (by rw [h19]; omega)]
  rw [h0] at hlib
  have hdlen : LIBCMT.length ≤ (DEBUG_STATIC_CRT.drop (i + 12 - k)).length := by
    have h6 : LIBCMT.length = 6 := by decide
    rw [h6, List.length_drop, h19]; omega
  have hlib3 := litMatch_of_append_le hlib hdlen
  have hd12 : i + 12 - k = 12 := by
    have hall : ∀ e, e < 14 → litMatch LIBCMT (DEBUG_STATIC_CRT.drop e) = true →
        e = 12 := by decide
    exact hall (i + 12 - k) (by omega) hlib3
  have hki : k = i := by omega
  rw [hki] at hrest
  have hfinal : charAt? (t.drop i) 18 = some 'D' := by
    rw [hrest, charAt?_append_lt (by decide)]
    decide
  rw [hc] at hfinal
  exact hcD (Option.some.inj hfinal)

/-- Closed instance of the C2 theorem at the text `/DEFAULTLIB:LIBCMTD`
itself, whose only `LIBCMT` occurrence lies inside the debug-static marker. -/
theorem debug_static_marker_not_release_static_witness :
    found_release_static_crt DEBUG_STATIC_CRT = false ∧
    classify_crt_linkage DEBUG_STATIC_CRT = .detected .DEBUG_STATIC ∧
    crts_found_count DEBUG_STATIC_CRT = 1 :=
  debug_static_marker_not_release_static DEBUG_STATIC_CRT (by
    intro j hj hocc
    have hj12 : j = 12 := by
      have hall : ∀ e, e < 19 → litMatch LIBCMT (DEBUG_STATIC_CRT.drop e) = true →
          e = 12 := by decide
      exact hall j (by simpa using hj) hocc
    subst hj12
    exact ⟨0, by omega, by decide, by omega⟩)

/-- Directive text that ends exactly with the release-static literal
`/DEFAULTLIB:LIBCMT` yet also contains an earlier occurrence of that literal
followed by a character other than `D` (namely the `/` of the second
directive). -/
def doubledTrailingText : List Char := "/DEFAULTLIB:LIBCMT/DEFAULTLIB:LIBCMT".data

/-- C10 counterexample: this text ends exactly with `/DEFAULTLIB:LIBCMT`
(nothing follows the final occurrence), yet the release-static marker IS
detected, because of the earlier occurrence followed by `/`. -/
theorem trailing_marker_counterexample :
    doubledTrailingText.drop (doubledTrailingText.length - 18) =
      RELEASE_STATIC_CRT_LIT ∧
    found_release_static_crt doubledTrailingText = true := by decide

/-- Detection of a `lit[^D]`-style marker needs a character after the literal,
so a text whose occurrences of the 18-character literal all end the text
yields no match. -/
theorem searchNotFollowedBy_eq_false_of_trailing {pat : List Char} {ex : Char}
    {t : List Char} (hlen : pat.length = 18)
    (h : ∀ i, i < t.length → litMatch pat (t.drop i) = true → i + 18 = t.length) :
    searchNotFollowedBy pat ex t = false := by
  cases hfs : searchNotFollowedBy pat ex t
  · rfl
  exfalso
  rw [searchNotFollowedBy_iff] at hfs
  obtain ⟨i, hi⟩ := hfs
  rw [matchNotFollowedBy_iff, hlen] at hi
  obtain ⟨hpre, c, hc, _⟩ := hi
  have h18 : 18 < (t.drop i).length := charAt?_lt_length hc
  rw [List.length_drop] at h18
  have := h i (by omega) hpre
  omega

/-- C10 (amended): in a directive text whose every occurrence of
`/DEFAULTLIB:LIBCMT` ends exactly at the end of the text, the release-static
marker is not detected, and independently, in a directive text whose every
occurrence of `/DEFAULTLIB:MSVCRT` ends exactly at the end of the text, the
release-dynamic marker is not detected — each half assuming nothing about the
other marker — because detection requires a character other than `D` to
follow the literal; the texts consisting of exactly those literals are
classified undetectable. -/
theorem trailing_release_marker_not_detected (t : List Char) :
    ((∀ i, i < t.length → litMatch RELEASE_STATIC_CRT_LIT (t.drop i) = true →
        i + 18 = t.length) →
      found_release_static_crt t = false) ∧
    ((∀ i, i < t.length → litMatch RELEASE_DYNAMIC_CRT_LIT (t.drop i) = true →
        i + 18 = t.length) →
      found_release_dynamic_crt t = false) ∧
    classify_crt_linkage RELEASE_STATIC_CRT_LIT = .undetectable ∧
    classify_crt_linkage RELEASE_DYNAMIC_CRT_LIT = .undetectable :=
  ⟨fun hs => searchNotFollowedBy_eq_false_of_trailing (by decide) hs,
   fun hd => searchNotFollowedBy_eq_false_of_trailing (by decide) hd,
   by decide, by decide⟩

/-- Closed instance of the amended C10 theorem, exercising each half on its
own text: the release-static half at the text consisting of exactly
`/DEFAULTLIB:LIBCMT` and the release-dynamic half at the text consisting of
exactly `/DEFAULTLIB:MSVCRT`. -/
theorem trailing_release_marker_not_detected_witness :
    found_release_static_crt RELEASE_STATIC_CRT_LIT = false ∧
    found_release_dynamic_crt RELEASE_DYNAMIC_CRT_LIT = false :=
  ⟨(trailing_release_marker_not_detected RELEASE_STATIC_CRT_LIT).1 (by decide),
   (trailing_release_marker_not_detected RELEASE_DYNAMIC_CRT_LIT).2.1 (by decide)⟩

/-! ## Binary header classifier (`get_actual_architecture`, lines 298-313) -/

/-- Modelled from the spec: the numeric values of the `MachineType` enumerators
named by the switch in `get_actual_architecture` live in `coff_file_reader.h`,
which is not part of the sources; per spec section 4.1 they are the raw 16-bit
machine-type codes read from a binary's PE/COFF header, so the standard
`IMAGE_FILE_MACHINE_AMD64` value is used. -/
def AMD64 : Nat := 0x8664

/-- Modelled from the spec: standard PE/COFF machine code for Itanium
(`IMAGE_FILE_MACHINE_IA64`); see `AMD64`. -/
def IA64 : Nat := 0x200

/-- Modelled from the spec: standard PE/COFF machine code for 32-bit x86
(`IMAGE_FILE_MACHINE_I386`); see `AMD64`. -/
def I386 : Nat := 0x14c

/-- Modelled from the spec: standard PE/COFF machine code for ARM
(`IMAGE_FILE_MACHINE_ARM`); see `AMD64`. -/
def ARM : Nat := 0x1c0

/-- Modelled from the spec: standard PE/COFF machine code for ARM Thumb-2
(`IMAGE_FILE_MACHINE_ARMNT`); see `AMD64`. -/
def ARMNT : Nat := 0x1c4

/-- `get_actual_architecture`: the switch over the machine type, with the
`default` branch printing the decimal value of the 16-bit code. -/
def get_actual_architecture (machine_type : Nat) : String :=
  if machine_type = AMD64 ∨ machine_type = IA64 then "x64"
  else if machine_type = I386 then "x86"
  else if machine_type = ARM ∨ machine_type = ARMNT then "arm"
  else "Machine Type Code = " ++ toString machine_type

/-- C3: the binary header classifier is total on machine-type codes: the AMD64
and IA64 codes map to "x64", the I386 code to "x86", the ARM and ARMNT codes
to "arm", and every other code to the fallback string embedding its decimal
value; no code is an error. -/
theorem machine_type_mapping :
    get_actual_architecture AMD64 = "x64" ∧
    get_actual_architecture IA64 = "x64" ∧
    get_actual_architecture I386 = "x86" ∧
    get_actual_architecture ARM = "arm" ∧
    get_actual_architecture ARMNT = "arm" ∧
    ∀ code : Nat, code ∉ [AMD64, IA64, I386, ARM, ARMNT] →
      get_actual_architecture code = "Machine Type Code = " ++ toString code := by
  refine ⟨by decide, by decide, by decide, by decide, by decide, ?_⟩
  intro code hcode
  simp only [List.mem_cons, List.mem_singleton, not_or] at hcode
  obtain ⟨h1, h2, h3, h4, h5, -⟩ := hcode
  rw [get_actual_architecture, if_neg (by tauto), if_neg h3, if_neg (by tauto)]

/-- Closed instance of the C3 theorem: the unrecognized code 0 maps to the
fallback string. -/
theorem machine_type_mapping_witness :
    (0 : Nat) ∉ [AMD64, IA64, I386, ARM, ARMNT] ∧
    get_actual_architecture 0 = "Machine Type Code = 0" :=
  ⟨by decide, machine_type_mapping.2.2.2.2.2 0 (by decide)⟩

/-! ## Filesystem and collaborator environment

The checks read the installation tree and invoke the external dumpbin /
COFF-reader collaborators.  A path is its list of components from the
filesystem root; the environment holds the set of regular files, the set of
directories, the captured collaborator outputs, and the inputs
`perform_all_checks` receives (package spec, triplet, build metadata). -/

/-- A filesystem path, as its list of components. -/
abbrev FsPath := List String

/-- `System::exit_code_and_output`: result of one external command. -/
structure ExitCodeAndOutput where
  exit_code : Int
  output : List Char

/-- The environment a validation run reads: the filesystem, the external
collaborators, and the inputs of `perform_all_checks`. -/
structure Env where
  /-- Every regular file present, by full path. -/
  files : List FsPath
  /-- Every directory present, by full path. -/
  dirs : List FsPath
  /-- `dumpbin.exe /exports` on a DLL. -/
  dumpbin_exports : FsPath → ExitCodeAndOutput
  /-- `dumpbin.exe /headers` on a DLL. -/
  dumpbin_headers : FsPath → ExitCodeAndOutput
  /-- `COFFFileReader::read_lib(...).machine_types`. -/
  read_lib_machine_types : FsPath → List Nat
  /-- `COFFFileReader::read_dll(...).machine_type`. -/
  read_dll_machine_type : FsPath → Nat
  /-- `build_info.library_linkage` from the build metadata. -/
  library_linkage : String
  /-- `spec.dir()`: the package's installation subdirectory name. -/
  spec_dir : String
  /-- `spec.name()`: the package name. -/
  spec_name : String
  /-- `spec.target_triplet().architecture()`. -/
  target_architecture : String
  /-- `spec.target_triplet().system()`. -/
  target_system : String

/-- `paths.packages / spec.dir()`. -/
def packageDir (env : Env) : FsPath := ["packages", env.spec_dir]

/-- `paths.ports / spec.name() / "portfile.cmake"`, the path in the final
error report. -/
def portfilePath (env : Env) : FsPath := ["ports", env.spec_name, "portfile.cmake"]

/-- Is `p` an entry strictly below directory `dir` (as the recursive directory
iteration enumerates)? -/
def pathUnder (dir p : FsPath) : Bool :=
  litMatch dir p && dir.length < p.length

/-- Suffix of a filename starting at its final dot: `std::tr2::sys::path::extension`. -/
def extensionSuffix : List Char → List Char
  | [] => []
  | c :: rest =>
      let r := extensionSuffix rest
      if r.isEmpty && c == '.' then c :: rest else r

/-- Extension (including the dot) of a path's filename. -/
def fileExtension (p : FsPath) : String :=
  match p.getLast? with
  | none => ""
  | some name => String.mk (extensionSuffix name.data)

/-- `recursive_find_files_with_extension_in_dir`: regular files below `dir`
whose extension equals `ext`. -/
def findFilesWithExtension (env : Env) (dir : FsPath) (ext : String) : List FsPath :=
  env.files.filter (fun p => pathUnder dir p && fileExtension p == ext)

/-- `fs::exists`. -/
def pathExists (env : Env) (p : FsPath) : Bool :=
  env.files.contains p || env.dirs.contains p

/-- `fs::is_empty` on a directory: no entry lies below it. -/
def dirIsEmpty (env : Env) (d : FsPath) : Bool :=
  env.files.all (fun p => !pathUnder d p) && env.dirs.all (fun p => !pathUnder d p)

/-- `enum class lint_status`. -/
inductive lint_status where
  | SUCCESS
  | ERROR_DETECTED
deriving DecidableEq

/-- `static_cast<size_t>(lint_status)`, the conversion behind the
`operator+=(size_t&, const lint_status&)` accumulation. -/
def statusVal : lint_status → Nat
  | .SUCCESS => 0
  | .ERROR_DETECTED => 1

/-! ## Layout policy checks (pure filesystem predicates) -/

/-- `check_for_files_in_include_directory`. -/
def check_for_files_in_include_directory (env : Env) : lint_status :=
  let include_dir := packageDir env ++ ["include"]
  if !pathExists env include_dir || dirIsEmpty env include_dir then .ERROR_DETECTED
  else .SUCCESS

/-- `check_for_files_in_debug_include_directory`: non-`.ifc` regular files
below `debug/include`. -/
def check_for_files_in_debug_include_directory (env : Env) : lint_status :=
  let debug_include_dir := packageDir env ++ ["debug", "include"]
  let files_found := env.files.filter
    (fun p => pathUnder debug_include_dir p && fileExtension p != ".ifc")
  if !files_found.isEmpty then .ERROR_DETECTED else .SUCCESS

/-- `check_for_files_in_debug_share_directory`. -/
def check_for_files_in_debug_share_directory (env : Env) : lint_status :=
  let debug_share := packageDir env ++ ["debug", "share"]
  if pathExists env debug_share && !dirIsEmpty env debug_share then .ERROR_DETECTED
  else .SUCCESS

/-- `check_folder_lib_cmake`. -/
def check_folder_lib_cmake (env : Env) : lint_status :=
  if pathExists env (packageDir env ++ ["lib", "cmake"]) then .ERROR_DETECTED
  else .SUCCESS

/-- `check_for_misplaced_cmake_files`: `.cmake` files scanned across four
candidate misplaced locations. -/
def check_for_misplaced_cmake_files (env : Env) : lint_status :=
  let pkg := packageDir env
  let misplaced_cmake_files :=
    findFilesWithExtension env (pkg ++ ["cmake"]) ".cmake" ++
    findFilesWithExtension env (pkg ++ ["debug", "cmake"]) ".cmake" ++
    findFilesWithExtension env (pkg ++ ["lib", "cmake"]) ".cmake" ++
    findFilesWithExtension env (pkg ++ ["debug", "lib", "cmake"]) ".cmake"
  if !misplaced_cmake_files.isEmpty then .ERROR_DETECTED else .SUCCESS

/-- `check_folder_debug_lib_cmake`. -/
def check_folder_debug_lib_cmake (env : Env) : lint_status :=
  if pathExists env (packageDir env ++ ["debug", "lib", "cmake"]) then .ERROR_DETECTED
  else .SUCCESS

/-- `check_for_dlls_in_lib_dirs`. -/
def check_for_dlls_in_lib_dirs (env : Env) : lint_status :=
  let dlls := findFilesWithExtension env (packageDir env ++ ["lib"]) ".dll" ++
    findFilesWithExtension env (packageDir env ++ ["debug", "lib"]) ".dll"
  if !dlls.isEmpty then .ERROR_DETECTED else .SUCCESS

/-- `check_for_copyright_file`: success exactly when the canonical copyright
file exists (the buildtrees search below only shapes the remediation text). -/
def check_for_copyright_file (env : Env) : lint_status :=
  let copyright_file := packageDir env ++ ["share", env.spec_name, "copyright"]
  if pathExists env copyright_file then .SUCCESS else .ERROR_DETECTED

/-- `check_for_exes`: `.exe` files below `bin` and `debug/bin`. -/
def check_for_exes (env : Env) : lint_status :=
  let exes := findFilesWithExtension env (packageDir env ++ ["bin"]) ".exe" ++
    findFilesWithExtension env (packageDir env ++ ["debug", "bin"]) ".exe"
  if !exes.isEmpty then .ERROR_DETECTED else .SUCCESS

/-- The data `check_matching_debug_and_release_binaries` prints on a
violation: both counts, then (for each empty side) a not-found notice. -/
structure MatchingReport where
  debug_count : Nat
  release_count : Nat
  debug_not_found : Bool
  release_not_found : Bool
deriving DecidableEq

/-- `check_matching_debug_and_release_binaries`, with its console output made
explicit as an optional `MatchingReport`. -/
def check_matching_debug_and_release_binaries
    (debug_binaries release_binaries : List FsPath) :
    lint_status × Option MatchingReport :=
  let debug_count := debug_binaries.length
  let release_count := release_binaries.length
  if debug_count = release_count then (.SUCCESS, none)
  else (.ERROR_DETECTED,
    some ⟨debug_count, release_count, debug_count == 0, release_count == 0⟩)

/-- `check_no_dlls_present`. -/
def check_no_dlls_present (dlls : List FsPath) : lint_status :=
  if dlls.isEmpty then .SUCCESS else .ERROR_DETECTED

/-- `check_bin_folders_are_not_present_in_static_build`. -/
def check_bin_folders_are_not_present_in_static_build (env : Env) : lint_status :=
  let bin := packageDir env ++ ["bin"]
  let debug_bin := packageDir env ++ ["debug", "bin"]
  if !pathExists env bin && !pathExists env debug_bin then .SUCCESS
  else .ERROR_DETECTED

/-- `check_no_empty_folders`. -/
def check_no_empty_folders (env : Env) (dir : FsPath) : lint_status :=
  let empty_directories :=
    env.dirs.filter (fun d => pathUnder dir d && dirIsEmpty env d)
  if !empty_directories.isEmpty then .ERROR_DETECTED else .SUCCESS

/-! ## Binary checks (external collaborator plus `Checks::check_exit`) -/

/-- Reasons `Checks::check_exit` fatally terminates the whole run. -/
inductive CheckFatal where
  | command_failed (file : FsPath)
  | wrong_extension (file : FsPath)
  | not_exactly_one_architecture (file : FsPath)
deriving DecidableEq

/-- Export-table marker searched in the `/exports` dump (line 244). -/
def EXPORTS_MARKER : List Char := "ordinal hint RVA      name".data

/-- Platform-capability-bit marker searched in the `/headers` dump (line 275). -/
def APP_CONTAINER_MARKER : List Char := "App Container".data

/-- The per-DLL loop of `check_exports_of_dlls`, collecting
`dlls_with_no_exports`; a non-zero dumpbin exit status is fatal. -/
def exports_loop (env : Env) : List FsPath → Except CheckFatal (List FsPath)
  | [] => .ok []
  | dll :: rest =>
      let ec_data := env.dumpbin_exports dll
      if ec_data.exit_code ≠ 0 then .error (.command_failed dll)
      else match exports_loop env rest with
        | .error e => .error e
        | .ok dlls_with_no_exports =>
            .ok (if searchLit EXPORTS_MARKER ec_data.output then dlls_with_no_exports
                 else dll :: dlls_with_no_exports)

/-- `check_exports_of_dlls`. -/
def check_exports_of_dlls (dlls : List FsPath) (env : Env) :
    Except CheckFatal lint_status :=
  match exports_loop env dlls with
  | .error e => .error e
  | .ok dlls_with_no_exports =>
      .ok (if !dlls_with_no_exports.isEmpty then .ERROR_DETECTED else .SUCCESS)

/-- The per-DLL loop of `check_uwp_bit_of_dlls`, collecting
`dlls_with_improper_uwp_bit`. -/
def uwp_loop (env : Env) : List FsPath → Except CheckFatal (List FsPath)
  | [] => .ok []
  | dll :: rest =>
      let ec_data := env.dumpbin_headers dll
      if ec_data.exit_code ≠ 0 then .error (.command_failed dll)
      else match uwp_loop env rest with
        | .error e => .error e
        | .ok dlls_with_improper_uwp_bit =>
            .ok (if searchLit APP_CONTAINER_MARKER ec_data.output
                 then dlls_with_improper_uwp_bit
                 else dll :: dlls_with_improper_uwp_bit)

/-- `check_uwp_bit_of_dlls`: returns success immediately unless the expected
system name is `uwp` (lines 263-266). -/
def check_uwp_bit_of_dlls (expected_system_name : String) (dlls : List FsPath)
    (env : Env) : Except CheckFatal lint_status :=
  if expected_system_name ≠ "uwp" then .ok .SUCCESS
  else match uwp_loop env dlls with
    | .error e => .error e
    | .ok dlls_with_improper_uwp_bit =>
        .ok (if !dlls_with_improper_uwp_bit.isEmpty then .ERROR_DETECTED else .SUCCESS)

/-- The per-file loop of `check_dll_architecture`, collecting
`binaries_with_invalid_architecture`; a non-`.dll` extension is fatal. -/
def dll_arch_loop (expected_architecture : String) (env : Env) :
    List FsPath → Except CheckFatal (List (FsPath × String))
  | [] => .ok []
  | file :: rest =>
      if fileExtension file ≠ ".dll" then .error (.wrong_extension file)
      else
        let actual_architecture :=
          get_actual_architecture (env.read_dll_machine_type file)
        match dll_arch_loop expected_architecture env rest with
        | .error e => .error e
        | .ok bad =>
            .ok (if expected_architecture ≠ actual_architecture
                 then (file, actual_architecture) :: bad else bad)

/-- `check_dll_architecture`. -/
def check_dll_architecture (expected_architecture : String) (files : List FsPath)
    (env : Env) : Except CheckFatal lint_status :=
  match dll_arch_loop expected_architecture env files with
  | .error e => .error e
  | .ok bad => .ok (if !bad.isEmpty then .ERROR_DETECTED else .SUCCESS)

/-- The per-file loop of `check_lib_architecture`: a non-`.lib` extension is
fatal, and so is a `machine_types` list whose size differs from one
(`Checks::check_exit(info.machine_types.size() == 1, ...)`, line 360); only
with exactly one machine type is the architecture compared. -/
def lib_arch_loop (expected_architecture : String) (env : Env) :
    List FsPath → Except CheckFatal (List (FsPath × String))
  | [] => .ok []
  | file :: rest =>
      if fileExtension file ≠ ".lib" then .error (.wrong_extension file)
      else match env.read_lib_machine_types file with
        | [machine_type] =>
            let actual_architecture := get_actual_architecture machine_type
            match lib_arch_loop expected_architecture env rest with
            | .error e => .error e
            | .ok bad =>
                .ok (if expected_architecture ≠ actual_architecture
                     then (file, actual_architecture) :: bad else bad)
        | _ => .error (.not_exactly_one_architecture file)

/-- `check_lib_architecture`. -/
def check_lib_architecture (expected_architecture : String) (files : List FsPath)
    (env : Env) : Except CheckFatal lint_status :=
  match lib_arch_loop expected_architecture env files with
  | .error e => .error e
  | .ok bad => .ok (if !bad.isEmpty then .ERROR_DETECTED else .SUCCESS)

/-! ## Orchestrator (`perform_all_checks`, lines 607-691) -/

/-- `LinkageType` from the build metadata. -/
inductive LinkageType where
  | DYNAMIC
  | STATIC
  | UNKNOWN
deriving DecidableEq

/-- Modelled from the spec: `linkage_type_value_of` lives in `BuildInfo.cpp`,
which is not among the sources; per the spec's input contract and section 4.6
the declared `library_linkage` is `static`, `dynamic`, or unrecognized. -/
def linkage_type_value_of (s : String) : LinkageType :=
  if s = "dynamic" then .DYNAMIC
  else if s = "static" then .STATIC
  else .UNKNOWN

/-- Outcome of a full run that was not fatally aborted: `perform_all_checks`
either returns normally (accepted) or reports the error count and the
portfile path and exits with `EXIT_FAILURE` (rejected). -/
inductive RunResult where
  | accepted
  | rejected (error_count : Nat) (portfile : FsPath)
deriving DecidableEq

/-- `debug_libs` (line 624). -/
def debug_libs (env : Env) : List FsPath :=
  findFilesWithExtension env (packageDir env ++ ["debug", "lib"]) ".lib"

/-- `release_libs` (line 625). -/
def release_libs (env : Env) : List FsPath :=
  findFilesWithExtension env (packageDir env ++ ["lib"]) ".lib"

/-- `debug_dlls` (line 639). -/
def debug_dlls (env : Env) : List FsPath :=
  findFilesWithExtension env (packageDir env ++ ["debug", "bin"]) ".dll"

/-- `release_dlls` (line 640). -/
def release_dlls (env : Env) : List FsPath :=
  findFilesWithExtension env (packageDir env ++ ["bin"]) ".dll"

/-- The `switch (linkage_type_value_of(build_info.library_linkage))` statement
of `perform_all_checks` (lines 635-675): the error count the selected branch
adds.  The dynamic branch runs the dll parity, exports, uwp-bit and dll
architecture checks; the static branch runs the no-dlls and no-bin-folders
checks; the unknown branch adds exactly one. -/
def linkage_switch_count (env : Env) : Except CheckFatal Nat :=
  match linkage_type_value_of env.library_linkage with
  | .DYNAMIC =>
      let d1 := (check_matching_debug_and_release_binaries (debug_dlls env)
        (release_dlls env)).fst
      match check_exports_of_dlls (debug_dlls env ++ release_dlls env) env with
      | .error e => .error e
      | .ok d2 =>
        match check_uwp_bit_of_dlls env.target_system
            (debug_dlls env ++ release_dlls env) env with
        | .error e => .error e
        | .ok d3 =>
          match check_dll_architecture env.target_architecture
              (debug_dlls env ++ release_dlls env) env with
          | .error e => .error e
          | .ok d4 =>
              .ok (statusVal d1 + statusVal d2 + statusVal d3 + statusVal d4)
  | .STATIC =>
      let t1 := check_no_dlls_present
        (findFilesWithExtension env (packageDir env) ".dll")
      let t2 := check_bin_folders_are_not_present_in_static_build env
      .ok (statusVal t1 + statusVal t2)
  | .UNKNOWN => .ok 1

/-- Spec view of the linkage switch: the statuses of the checks the selected
branch runs, as a list (the unknown branch is one violation entry). -/
def linkage_switch_statuses (env : Env) : Except CheckFatal (List lint_status) :=
  match linkage_type_value_of env.library_linkage with
  | .DYNAMIC =>
      match check_exports_of_dlls (debug_dlls env ++ release_dlls env) env with
      | .error e => .error e
      | .ok d2 =>
        match check_uwp_bit_of_dlls env.target_system
            (debug_dlls env ++ release_dlls env) env with
        | .error e => .error e
        | .ok d3 =>
          match check_dll_architecture env.target_architecture
              (debug_dlls env ++ release_dlls env) env with
          | .error e => .error e
          | .ok d4 =>
              .ok [(check_matching_debug_and_release_binaries (debug_dlls env)
                      (release_dlls env)).fst, d2, d3, d4]
  | .STATIC =>
      .ok [check_no_dlls_present
             (findFilesWithExtension env (packageDir env) ".dll"),
           check_bin_folders_are_not_present_in_static_build env]
  | .UNKNOWN => .ok [.ERROR_DETECTED]

/-- `perform_all_checks`, translated statement by statement: the error counter
accumulates `static_cast<size_t>` of every check's status, the linkage switch
selects the dynamic / static / unknown branch (the unknown branch adds one and
continues), and a non-zero final counter reports the portfile and exits with
failure. -/
def perform_all_checks (env : Env) : Except CheckFatal RunResult :=
  match check_lib_architecture env.target_architecture
      (debug_libs env ++ release_libs env) env with
  | .error e => .error e
  | .ok s11 =>
    match linkage_switch_count env with
    | .error e => .error e
    | .ok bn =>
      let error_count :=
        statusVal (check_for_files_in_include_directory env) +
        statusVal (check_for_files_in_debug_include_directory env) +
        statusVal (check_for_files_in_debug_share_directory env) +
        statusVal (check_folder_lib_cmake env) +
        statusVal (check_for_misplaced_cmake_files env) +
        statusVal (check_folder_debug_lib_cmake env) +
        statusVal (check_for_dlls_in_lib_dirs env) +
        statusVal (check_for_copyright_file env) +
        statusVal (check_for_exes env) +
        statusVal (check_matching_debug_and_release_binaries (debug_libs env)
          (release_libs env)).fst +
        statusVal s11 + bn +
        statusVal (check_no_empty_folders env (packageDir env))
      if error_count ≠ 0 then .ok (.rejected error_count (portfilePath env))
      else .ok .accepted

/-- Spec sections 4.5 and 4.6 view of the same run: the outcome of every
applicable check, each one evaluated on the installation independently of the
others' outcomes, listed in the fixed battery order (an unrecognized linkage
contributes exactly one violation entry). -/
def battery_statuses (env : Env) : Except CheckFatal (List lint_status) :=
  match check_lib_architecture env.target_architecture
      (debug_libs env ++ release_libs env) env with
  | .error e => .error e
  | .ok s11 =>
    match linkage_switch_statuses env with
    | .error e => .error e
    | .ok bl =>
      .ok ([check_for_files_in_include_directory env,
            check_for_files_in_debug_include_directory env,
            check_for_files_in_debug_share_directory env,
            check_folder_lib_cmake env,
            check_for_misplaced_cmake_files env,
            check_folder_debug_lib_cmake env,
            check_for_dlls_in_lib_dirs env,
            check_for_copyright_file env,
            check_for_exes env,
            (check_matching_debug_and_release_binaries (debug_libs env)
              (release_libs env)).fst,
            s11] ++ bl ++ [check_no_empty_folders env (packageDir env)])

/-- Total number of violations in a list of check outcomes: one unit per
`ERROR_DETECTED`. -/
def countErrors (statuses : List lint_status) : Nat :=
  (statuses.map statusVal).sum

theorem linkage_switch_count_eq (env : Env) :
    linkage_switch_count env = (linkage_switch_statuses env).map countErrors := by
  unfold linkage_switch_count linkage_switch_statuses
  cases linkage_type_value_of env.library_linkage with
  | DYNAMIC =>
      cases check_exports_of_dlls (debug_dlls env ++ release_dlls env) env with
      | error e => rfl
      | ok d2 =>
        cases check_uwp_bit_of_dlls env.target_system
            (debug_dlls env ++ release_dlls env) env with
        | error e => rfl
        | ok d3 =>
          cases check_dll_architecture env.target_architecture
              (debug_dlls env ++ release_dlls env) env with
          | error e => rfl
          | ok d4 =>
            simp only [Except.map, countErrors, List.map_cons, List.map_nil,
              List.sum_cons, List.sum_nil, Except.ok.injEq]
            omega
  | STATIC =>
      simp only [Except.map, countErrors, List.map_cons, List.map_nil,
        List.sum_cons, List.sum_nil, Except.ok.injEq]
      omega
  | UNKNOWN => rfl

/-- C4: in a run without a fatal tool failure, the orchestrator's result is
determined by the independently evaluated battery: a violation never stops the
remaining checks, the final counter is the total over every applicable check
of one unit per violation, the run is accepted exactly when that counter is
zero, and otherwise it is rejected with the non-zero counter and the package's
portfile path. -/
theorem perform_all_checks_accumulates (env : Env) (r : RunResult)
    (h : perform_all_checks env = .ok r) :
    ∃ statuses, battery_statuses env = .ok statuses ∧
      (r = .accepted ↔ countErrors statuses = 0) ∧
      (∀ n p, r = .rejected n p →
        n = countErrors statuses ∧ n ≠ 0 ∧ p = portfilePath env) := by
  unfold perform_all_checks at h
  unfold battery_statuses
  cases hlib : check_lib_architecture env.target_architecture
      (debug_libs env ++ release_libs env) env with
  | error e => rw [hlib] at h; exact absurd h (by simp)
  | ok s11 =>
    rw [hlib] at h
    rw [linkage_switch_count_eq] at h
    cases hsw : linkage_switch_statuses env with
    | error e => rw [hsw] at h; exact absurd h (by simp [Except.map])
    | ok bl =>
      rw [hsw] at h
      simp only [Except.map] at h
      refine ⟨_, rfl, ?_⟩
      have hcount : countErrors
          ([check_for_files_in_include_directory env,
            check_for_files_in_debug_include_directory env,
            check_for_files_in_debug_share_directory env,
            check_folder_lib_cmake env,
            check_for_misplaced_cmake_files env,
            check_folder_debug_lib_cmake env,
            check_for_dlls_in_lib_dirs env,
            check_for_copyright_file env,
            check_for_exes env,
            (check_matching_debug_and_release_binaries (debug_libs env)
              (release_libs env)).fst,
            s11] ++ bl ++ [check_no_empty_folders env (packageDir env)]) =
          statusVal (check_for_files_in_include_directory env) +
          statusVal (check_for_files_in_debug_include_directory env) +
          statusVal (check_for_files_in_debug_share_directory env) +
          statusVal (check_folder_lib_cmake env) +
          statusVal (check_for_misplaced_cmake_files env) +
          statusVal (check_folder_debug_lib_cmake env) +
          statusVal (check_for_dlls_in_lib_dirs env) +
          statusVal (check_for_copyright_file env) +
          statusVal (check_for_exes env) +
          statusVal (check_matching_debug_and_release_binaries (debug_libs env)
            (release_libs env)).fst +
          statusVal s11 + countErrors bl +
          statusVal (check_no_empty_folders env (packageDir env)) := by
        simp only [countErrors, List.map_append, List.sum_append, List.map_cons,
          List.map_nil, List.sum_cons, List.sum_nil]
        omega
      rw [hcount]
      by_cases hc : statusVal (check_for_files_in_include_directory env) +
          statusVal (check_for_files_in_debug_include_directory env) +
          statusVal (check_for_files_in_debug_share_directory env) +
          statusVal (check_folder_lib_cmake env) +
          statusVal (check_for_misplaced_cmake_files env) +
          statusVal (check_folder_debug_lib_cmake env) +
          statusVal (check_for_dlls_in_lib_dirs env) +
          statusVal (check_for_copyright_file env) +
          statusVal (check_for_exes env) +
          statusVal (check_matching_debug_and_release_binaries (debug_libs env)
            (release_libs env)).fst +
          statusVal s11 + countErrors bl +
          statusVal (check_no_empty_folders env (packageDir env)) = 0
      · rw [if_neg (by omega)] at h
        have hr : r = .accepted := by
          injection h with h2; exact h2.symm
        subst hr
        refine ⟨by simp [hc], ?_⟩
        intro n p hnp
        exact absurd hnp (by simp)
      · rw [if_pos hc] at h
        have hr : r = .rejected
            (statusVal (check_for_files_in_include_directory env) +
             statusVal (check_for_files_in_debug_include_directory env) +
             statusVal (check_for_files_in_debug_share_directory env) +
             statusVal (check_folder_lib_cmake env) +
             statusVal (check_for_misplaced_cmake_files env) +
             statusVal (check_folder_debug_lib_cmake env) +
             statusVal (check_for_dlls_in_lib_dirs env) +
             statusVal (check_for_copyright_file env) +
             statusVal (check_for_exes env) +
             statusVal (check_matching_debug_and_release_binaries (debug_libs env)
               (release_libs env)).fst +
             statusVal s11 + countErrors bl +
             statusVal (check_no_empty_folders env (packageDir env)))
            (portfilePath env) := by
          injection h with h2; exact h2.symm
        subst hr
        constructor
        · constructor
          · intro hx; exact absurd hx (by simp)
          · intro hx; exact absurd hx hc
        · intro n p hnp
          injection hnp with hn hp
          exact ⟨hn.symm, by omega, hp.symm⟩

/-! ## Concrete environments used as witnesses and counterexamples -/

/-- A clean static-linkage installation: a populated include directory and the
canonical copyright file, nothing else. -/
def cleanEnv : Env where
  files := [["packages", "z_x86-windows", "include", "z.h"],
            ["packages", "z_x86-windows", "share", "z", "copyright"]]
  dirs := [["packages", "z_x86-windows", "include"],
           ["packages", "z_x86-windows", "share"],
           ["packages", "z_x86-windows", "share", "z"]]
  dumpbin_exports := fun _ => ⟨0, []⟩
  dumpbin_headers := fun _ => ⟨0, []⟩
  read_lib_machine_types := fun _ => [I386]
  read_dll_machine_type := fun _ => I386
  library_linkage := "static"
  spec_dir := "z_x86-windows"
  spec_name := "z"
  target_architecture := "x86"
  target_system := "windows"

example : perform_all_checks cleanEnv = .ok .accepted := rfl

/-- Closed instance of the C4 theorem on the clean environment, whose run is
accepted. -/
theorem perform_all_checks_accumulates_witness :
    ∃ statuses, battery_statuses cleanEnv = .ok statuses ∧
      (RunResult.accepted = .accepted ↔ countErrors statuses = 0) ∧
      (∀ n p, RunResult.accepted = .rejected n p →
        n = countErrors statuses ∧ n ≠ 0 ∧ p = portfilePath cleanEnv) :=
  perform_all_checks_accumulates cleanEnv .accepted rfl

/-- C8: when the declared `library_linkage` is unrecognized (neither static
nor dynamic) and the library-architecture check does not fatally abort, the
run is not a tool failure: it continues through the remaining checks and the
unknown linkage contributes exactly one unit to the violation counter, so the
run is rejected. -/
theorem unknown_linkage_single_violation (env : Env) (s11 : lint_status)
    (h1 : linkage_type_value_of env.library_linkage = .UNKNOWN)
    (h2 : check_lib_architecture env.target_architecture
      (debug_libs env ++ release_libs env) env = .ok s11) :
    perform_all_checks env = .ok (.rejected
      (statusVal (check_for_files_in_include_directory env) +
       statusVal (check_for_files_in_debug_include_directory env) +
       statusVal (check_for_files_in_debug_share_directory env) +
       statusVal (check_folder_lib_cmake env) +
       statusVal (check_for_misplaced_cmake_files env) +
       statusVal (check_folder_debug_lib_cmake env) +
       statusVal (check_for_dlls_in_lib_dirs env) +
       statusVal (check_for_copyright_file env) +
       statusVal (check_for_exes env) +
       statusVal (check_matching_debug_and_release_binaries (debug_libs env)
         (release_libs env)).fst +
       statusVal s11 + 1 +
       statusVal (check_no_empty_folders env (packageDir env)))
      (portfilePath env)) := by
  have hsw : linkage_switch_count env = .ok 1 := by
    unfold linkage_switch_count
    rw [h1]
  unfold perform_all_checks
  rw [h2, hsw]
  dsimp only
  rw [if_pos (by omega)]

/-- The clean environment with an unrecognized `library_linkage` value. -/
def unknownLinkageEnv : Env := { cleanEnv with library_linkage := "staticc" }

/-- Closed instance of the C8 theorem on an environment whose declared linkage
is the unrecognized string "staticc". -/
theorem unknown_linkage_single_violation_witness :
    perform_all_checks unknownLinkageEnv = .ok (.rejected
      (statusVal (check_for_files_in_include_directory unknownLinkageEnv) +
       statusVal (check_for_files_in_debug_include_directory unknownLinkageEnv) +
       statusVal (check_for_files_in_debug_share_directory unknownLinkageEnv) +
       statusVal (check_folder_lib_cmake unknownLinkageEnv) +
       statusVal (check_for_misplaced_cmake_files unknownLinkageEnv) +
       statusVal (check_folder_debug_lib_cmake unknownLinkageEnv) +
       statusVal (check_for_dlls_in_lib_dirs unknownLinkageEnv) +
       statusVal (check_for_copyright_file unknownLinkageEnv) +
       statusVal (check_for_exes unknownLinkageEnv) +
       statusVal (check_matching_debug_and_release_binaries
         (debug_libs unknownLinkageEnv) (release_libs unknownLinkageEnv)).fst +
       statusVal lint_status.SUCCESS + 1 +
       statusVal (check_no_empty_folders unknownLinkageEnv
         (packageDir unknownLinkageEnv)))
      (portfilePath unknownLinkageEnv)) :=
  unknown_linkage_single_violation unknownLinkageEnv .SUCCESS (by decide) rfl

/-- Every library a successful pass of the lib-architecture loop saw reported
exactly one machine type. -/
theorem lib_arch_loop_ok_lengths {expected : String} {env : Env}
    {files : List FsPath} {bad : List (FsPath × String)}
    (h : lib_arch_loop expected env files = .ok bad) :
    ∀ f ∈ files, (env.read_lib_machine_types f).length = 1 := by
  induction files generalizing bad with
  | nil => intro f hf; simp at hf
  | cons x xs ih =>
    intro f hf
    unfold lib_arch_loop at h
    by_cases hx : fileExtension x ≠ ".lib"
    · rw [if_pos hx] at h; exact absurd h (by simp)
    · rw [if_neg hx] at h
      cases hmt : env.read_lib_machine_types x with
      | nil => rw [hmt] at h; exact absurd h (by simp)
      | cons t ts =>
        cases ts with
        | nil =>
          rw [hmt] at h
          dsimp only at h
          cases hrec : lib_arch_loop expected env xs with
          | error e => rw [hrec] at h; exact absurd h (by simp)
          | ok bad2 =>
            rw [hrec] at h
            rcases List.mem_cons.mp hf with hfx | hfxs
            · rw [hfx, hmt]; rfl
            · exact ih hrec f hfxs
        | cons t2 ts2 => rw [hmt] at h; exact absurd h (by simp)

/-- Every library a non-fatal run of `check_lib_architecture` saw reported
exactly one machine type. -/
theorem check_lib_architecture_ok_lengths {expected : String} {env : Env}
    {files : List FsPath} {s : lint_status}
    (h : check_lib_architecture expected files env = .ok s) :
    ∀ f ∈ files, (env.read_lib_machine_types f).length = 1 := by
  unfold check_lib_architecture at h
  cases hl : lib_arch_loop expected env files with
  | error e => rw [hl] at h; exact absurd h (by simp)
  | ok bad => exact lib_arch_loop_ok_lengths hl

/-- C9: the library-architecture check compares architectures only under the
precondition that the COFF reader reported exactly one machine type per
library; a library reporting more than one machine type makes the check
fatally terminate the run, the same `Except`-level failure as a tool failure,
never an accumulated violation. -/
theorem lib_architecture_needs_exactly_one_machine_type
    (expected_architecture : String) (files : List FsPath) (env : Env) :
    (∀ s, check_lib_architecture expected_architecture files env = .ok s →
      ∀ f ∈ files, (env.read_lib_machine_types f).length = 1) ∧
    (∀ f ∈ files, 1 < (env.read_lib_machine_types f).length →
      ∃ e, check_lib_architecture expected_architecture files env = .error e) := by
  constructor
  · intro s hs
    exact check_lib_architecture_ok_lengths hs
  · intro f hf hlen
    cases hres : check_lib_architecture expected_architecture files env with
    | error e => exact ⟨e, rfl⟩
    | ok s =>
      exfalso
      have := check_lib_architecture_ok_lengths hres f hf
      omega

/-- The clean environment whose COFF reader reports two machine types for
every library. -/
def multiArchEnv : Env :=
  { cleanEnv with read_lib_machine_types := fun _ => [I386, AMD64] }

/-- A static library path for the multi-architecture counterexample. -/
def multiArchLib : FsPath := ["packages", "z_x86-windows", "lib", "m.lib"]

/-- Closed instance of the C9 theorem: a library whose reader reports two
machine types makes the check fail fatally. -/
theorem lib_architecture_needs_exactly_one_machine_type_witness :
    ∃ e, check_lib_architecture "x86" [multiArchLib] multiArchEnv = .error e :=
  (lib_architecture_needs_exactly_one_machine_type "x86" [multiArchLib]
    multiArchEnv).2 multiArchLib (by decide) (by decide)

/-- Membership in a `findFilesWithExtension` result. -/
theorem mem_findFilesWithExtension {env : Env} {dir : FsPath} {ext : String}
    {p : FsPath} :
    p ∈ findFilesWithExtension env dir ext ↔
      p ∈ env.files ∧ pathUnder dir p = true ∧ fileExtension p = ext := by
  simp [findFilesWithExtension, List.mem_filter, and_assoc]

/-- The clean environment plus an executable under the package's `tools`
directory, outside `bin` and `debug/bin`. -/
def strayExeEnv : Env :=
  { cleanEnv with
    files := ["packages", "z_x86-windows", "tools", "app.exe"] :: cleanEnv.files }

/-- C5 counterexample: an installation tree with a `.exe` file under the
package root (in `tools`) for which the executable check nevertheless
passes, refuting that the check reports a violation whenever a `.exe` exists
anywhere under the tree. -/
theorem check_for_exes_counterexample :
    check_for_exes strayExeEnv = .SUCCESS ∧
    ∃ p, p ∈ strayExeEnv.files ∧ pathUnder (packageDir strayExeEnv) p = true ∧
      fileExtension p = ".exe" :=
  ⟨by decide, ["packages", "z_x86-windows", "tools", "app.exe"],
   by decide, by decide, by decide⟩

/-- C5 (amended): the executable check reports a violation exactly when a
`.exe` file exists below the package's `bin` or `debug/bin` directories;
executables elsewhere under the package tree are not inspected. -/
theorem check_for_exes_iff (env : Env) :
    check_for_exes env = .ERROR_DETECTED ↔
      ∃ p, p ∈ env.files ∧ fileExtension p = ".exe" ∧
        (pathUnder (packageDir env ++ ["bin"]) p = true ∨
         pathUnder (packageDir env ++ ["debug", "bin"]) p = true) := by
  have hmem : ∀ p : FsPath,
      p ∈ findFilesWithExtension env (packageDir env ++ ["bin"]) ".exe" ++
          findFilesWithExtension env (packageDir env ++ ["debug", "bin"]) ".exe" ↔
        (p ∈ env.files ∧ fileExtension p = ".exe" ∧
          (pathUnder (packageDir env ++ ["bin"]) p = true ∨
           pathUnder (packageDir env ++ ["debug", "bin"]) p = true)) := by
    intro p
    simp only [List.mem_append, mem_findFilesWithExtension]
    tauto
  unfold check_for_exes
  cases hE : (findFilesWithExtension env (packageDir env ++ ["bin"]) ".exe" ++
      findFilesWithExtension env (packageDir env ++ ["debug", "bin"]) ".exe").isEmpty
  · simp only [hE, Bool.not_false, if_true]
    constructor
    · intro _
      cases hl : findFilesWithExtension env (packageDir env ++ ["bin"]) ".exe" ++
          findFilesWithExtension env (packageDir env ++ ["debug", "bin"]) ".exe" with
      | nil => rw [hl] at hE; simp at hE
      | cons a as =>
        refine ⟨a, ?_⟩
        rw [← hmem a, hl]
        exact List.mem_cons_self a as
    · intro _; trivial
  · simp only [hE, Bool.not_true, if_false]
    constructor
    · intro hcon; exact absurd hcon (by simp)
    · rintro ⟨p, hp1, hp2, hp3⟩
      exfalso
      have hpmem := (hmem p).mpr ⟨hp1, hp2, hp3⟩
      rw [List.isEmpty_iff] at hE
      rw [hE] at hpmem
      simp at hpmem

/-- A successful pass of the uwp-bit loop returns exactly the dlls whose
headers dump lacks the App Container marker. -/
theorem uwp_loop_ok {env : Env} {dlls : List FsPath}
    (h : ∀ d ∈ dlls, (env.dumpbin_headers d).exit_code = 0) :
    uwp_loop env dlls = .ok (dlls.filter
      (fun d => !searchLit APP_CONTAINER_MARKER (env.dumpbin_headers d).output)) := by
  induction dlls with
  | nil => rfl
  | cons x xs ih =>
    unfold uwp_loop
    rw [if_neg (by simp [h x (List.mem_cons_self x xs)])]
    rw [ih (fun d hd => h d (List.mem_cons_of_mem x hd))]
    dsimp only [List.filter]
    cases searchLit APP_CONTAINER_MARKER (env.dumpbin_headers x).output <;> simp

/-- A successful pass of the exports loop returns exactly the dlls whose
exports dump lacks the export-table marker. -/
theorem exports_loop_ok {env : Env} {dlls : List FsPath}
    (h : ∀ d ∈ dlls, (env.dumpbin_exports d).exit_code = 0) :
    exports_loop env dlls = .ok (dlls.filter
      (fun d => !searchLit EXPORTS_MARKER (env.dumpbin_exports d).output)) := by
  induction dlls with
  | nil => rfl
  | cons x xs ih =>
    unfold exports_loop
    rw [if_neg (by simp [h x (List.mem_cons_self x xs)])]
    rw [ih (fun d hd => h d (List.mem_cons_of_mem x hd))]
    dsimp only [List.filter]
    cases searchLit EXPORTS_MARKER (env.dumpbin_exports x).output <;> simp

/-- A violation outcome over a collected list means the list is inhabited. -/
theorem error_iff_exists_mem {l : List α} :
    (if !l.isEmpty then lint_status.ERROR_DETECTED else .SUCCESS) =
        .ERROR_DETECTED ↔ ∃ x, x ∈ l := by
  cases l with
  | nil => simp
  | cons a as =>
    simp only [List.isEmpty_cons, Bool.not_false, if_true, true_iff]
    exact ⟨a, List.mem_cons_self a as⟩

/-- A DLL in the package's `bin` whose headers dump has no App Container
marker. -/
def nonUwpDll : FsPath := ["packages", "z_x86-windows", "bin", "n.dll"]

/-- The clean environment with a headers dump that lacks the App Container
marker, targeting the non-uwp system "windows". -/
def nonUwpEnv : Env :=
  { cleanEnv with dumpbin_headers := fun _ => ⟨0, "PE signature found".data⟩ }

/-- C6 counterexample: on the non-uwp system "windows" the
platform-capability-bit check passes without reporting the DLL even though its
headers dump lacks the App Container marker, refuting that the check applies
to every dynamic library regardless of the target platform kind. -/
theorem uwp_bit_check_counterexample :
    check_uwp_bit_of_dlls "windows" [nonUwpDll] nonUwpEnv = .ok .SUCCESS ∧
    searchLit APP_CONTAINER_MARKER
      ((nonUwpEnv.dumpbin_headers nonUwpDll).output) = false := by
  constructor
  · rfl
  · decide

/-- C6 (amended): when every dump succeeds, the export-table check is applied
to every dynamic library regardless of the platform kind, while the
platform-capability-bit check is applied only when the target platform is
`uwp` (for any other platform it passes without inspecting any library);
on `uwp` a DLL whose headers dump lacks the App Container marker yields a
violation. -/
theorem uwp_and_exports_check_coverage (expected_system_name : String)
    (dlls : List FsPath) (env : Env)
    (hheaders : ∀ d ∈ dlls, (env.dumpbin_headers d).exit_code = 0)
    (hexports : ∀ d ∈ dlls, (env.dumpbin_exports d).exit_code = 0) :
    (expected_system_name ≠ "uwp" →
      check_uwp_bit_of_dlls expected_system_name dlls env = .ok .SUCCESS) ∧
    (expected_system_name = "uwp" →
      (check_uwp_bit_of_dlls expected_system_name dlls env = .ok .ERROR_DETECTED ↔
        ∃ d, d ∈ dlls ∧
          searchLit APP_CONTAINER_MARKER (env.dumpbin_headers d).output = false)) ∧
    (check_exports_of_dlls dlls env = .ok .ERROR_DETECTED ↔
      ∃ d, d ∈ dlls ∧
        searchLit EXPORTS_MARKER (env.dumpbin_exports d).output = false) := by
  refine ⟨?_, ?_, ?_⟩
  · intro hneq
    unfold check_uwp_bit_of_dlls
    rw [if_pos hneq]
  · intro heq
    subst heq
    unfold check_uwp_bit_of_dlls
    rw [if_neg (by simp), uwp_loop_ok hheaders]
    simp only [Except.ok.injEq]
    rw [error_iff_exists_mem]
    simp [List.mem_filter]
  · unfold check_exports_of_dlls
    rw [exports_loop_ok hexports]
    simp only [Except.ok.injEq]
    rw [error_iff_exists_mem]
    simp [List.mem_filter]

/-- Closed instance of the amended C6 theorem on the uwp system with one DLL
lacking the App Container marker. -/
theorem uwp_and_exports_check_coverage_witness :
    ("windows" ≠ "uwp" →
      check_uwp_bit_of_dlls "windows" [nonUwpDll] nonUwpEnv = .ok .SUCCESS) ∧
    ("windows" = "uwp" →
      (check_uwp_bit_of_dlls "windows" [nonUwpDll] nonUwpEnv = .ok .ERROR_DETECTED ↔
        ∃ d, d ∈ [nonUwpDll] ∧
          searchLit APP_CONTAINER_MARKER
            (nonUwpEnv.dumpbin_headers d).output = false)) ∧
    (check_exports_of_dlls [nonUwpDll] nonUwpEnv = .ok .ERROR_DETECTED ↔
      ∃ d, d ∈ [nonUwpDll] ∧
        searchLit EXPORTS_MARKER (nonUwpEnv.dumpbin_exports d).output = false) :=
  uwp_and_exports_check_coverage "windows" [nonUwpDll] nonUwpEnv
    (by decide) (by decide)

/-- Sample debug-side binaries for the parity scenario. -/
def sampleDebugBinaries : List FsPath :=
  [["packages", "z_x86-windows", "debug", "lib", "a.lib"],
   ["packages", "z_x86-windows", "debug", "lib", "b.lib"]]

/-- Sample release-side binaries for the parity scenario. -/
def sampleReleaseBinaries : List FsPath :=
  [["packages", "z_x86-windows", "lib", "a.lib"],
   ["packages", "z_x86-windows", "lib", "b.lib"],
   ["packages", "z_x86-windows", "lib", "c.lib"]]

/-- C7: the debug/release parity check passes exactly when the two counts are
equal (in particular on two empty lists); on differing counts it reports both
counts plus, for each side, whether that side is empty; two debug against
three release binaries yield the mismatching-count violation. -/
theorem matching_binaries_spec (debug_binaries release_binaries : List FsPath) :
    ((check_matching_debug_and_release_binaries debug_binaries
        release_binaries).fst = .SUCCESS ↔
      debug_binaries.length = release_binaries.length) ∧
    ((check_matching_debug_and_release_binaries debug_binaries
        release_binaries).snd =
      if debug_binaries.length = release_binaries.length then none
      else some ⟨debug_binaries.length, release_binaries.length,
        debug_binaries.length == 0, release_binaries.length == 0⟩) ∧
    (check_matching_debug_and_release_binaries ([] : List FsPath) []).fst =
      .SUCCESS ∧
    check_matching_debug_and_release_binaries sampleDebugBinaries
        sampleReleaseBinaries = (.ERROR_DETECTED, some ⟨2, 3, false, false⟩) := by
  refine ⟨?_, ?_, by decide, by decide⟩ <;>
  · unfold check_matching_debug_and_release_binaries
    by_cases h : debug_binaries.length = release_binaries.length <;> simp [h]

end PostBuildLint
